import Mathlib

/-!
Shallow embedding of the VaultSwap attack-simulation scripts
(src/terraform/attack-simulations) and proofs about the claims of the
natural-language specification.

Conventions of the embedding:
* Python floats are modelled as rationals.
* Calls to random.uniform(a, b) are modelled as the function
  uniform a b u = a + u * (b - a) of a seed u, with 0 <= u <= 1 for a
  genuine draw; random.random() is a seed p with 0 <= p < 1;
  random.randint and random.choice results are passed in directly.
* Wall-clock readings (time.time()) are passed in as an AttackTimes record:
  t_start is the reading at function entry, t_mid a reading during entity
  construction, t_end the reading after the simulated network delay.
* Fallible Python code is modelled in the Except monad over PyError;
  Python dict literals relevant to the claims are mirrored as association
  lists of PyVal.
-/

set_option linter.unusedVariables false
set_option linter.dupNamespace false

unseal Rat.add Rat.mul Rat.sub Rat.inv

namespace VaultSwap

/-- Model of random.uniform(a, b): a + u * (b - a) for a seed u in [0, 1]. -/
def uniform (a b u : ℚ) : ℚ := a + u * (b - a)

/-- Python exceptions that the embedded code can raise. -/
inductive PyError where
  | nameError
  | zeroDivisionError
deriving DecidableEq

/-- Values stored in the flat attack-result dictionaries. -/
inductive PyVal where
  | num (q : ℚ)
  | str (s : String)
  | bool (b : Bool)
deriving DecidableEq

/-- Wall-clock readings taken during one attack-simulation call. -/
structure AttackTimes where
  t_start : ℚ
  t_mid : ℚ
  t_end : ℚ
deriving DecidableEq

namespace MEV

/-- mev_simulator.py AttackType. -/
inductive AttackType where
  | sandwich
  | frontRunning
  | backRunning
  | arbitrage
deriving DecidableEq

/-- The .value string of each AttackType member. -/
def AttackType.value : AttackType → String
  | .sandwich => "sandwich_attack"
  | .frontRunning => "front_running"
  | .backRunning => "back_running"
  | .arbitrage => "arbitrage_attack"

/-- mev_simulator.py Transaction dataclass. -/
structure Transaction where
  hash : String
  from_address : String
  to_address : String
  amount : ℚ
  gas_price : ℚ
  gas_limit : ℤ
  timestamp : ℚ
  nonce : ℤ
deriving DecidableEq

/-- mev_simulator.py Pool dataclass (liquidity pool). -/
structure Pool where
  address : String
  token_a : String
  token_b : String
  reserve_a : ℚ
  reserve_b : ℚ
  fee : ℚ
deriving DecidableEq

/-- mev_simulator.py MEVBot dataclass. -/
structure MEVBot where
  id : String
  address : String
  balance : ℚ
  gas_price_multiplier : ℚ
  success_rate : ℚ
  attack_types : List AttackType
deriving DecidableEq

/-- Random draws made by MEVSimulator._create_bots for one bot. -/
structure BotSeed where
  address : String
  u_balance : ℚ
  u_gas : ℚ
  u_success : ℚ
  attack_types : List AttackType
deriving DecidableEq

/-- One iteration of the loop body of MEVSimulator._create_bots. -/
def create_bot (i : ℕ) (seed : BotSeed) : MEVBot :=
  { id := "bot_" ++ toString i
  , address := seed.address
  , balance := uniform 100 10000 seed.u_balance
  , gas_price_multiplier := uniform (11/10) 2 seed.u_gas
  , success_rate := uniform (3/10) (9/10) seed.u_success
  , attack_types := seed.attack_types }

/-- Random draws consumed by the three MEV attack functions. -/
structure MEVRand where
  u_victim_amount : ℚ
  u_amount : ℚ
  u_price_difference : ℚ
  p_success : ℚ
  u_profit : ℚ
  victim_nonce : ℤ
  front_nonce : ℤ
  back_nonce : ℤ
deriving DecidableEq

/-- The keys shared by every attack-result dict of mev_simulator.py. -/
structure MEVAttackResult where
  attack_type : String
  bot_id : String
  pool_address : String
  profit : ℚ
  success : Bool
  detection_time : ℚ
  timestamp : ℚ
deriving DecidableEq

/-- MEVSimulator._simulate_sandwich_attack.  The victim, front-running and
back-running transactions are built exactly as in the source; the result
keeps the claim-relevant keys of the attack_result dict. -/
def simulate_sandwich_attack (bot : MEVBot) (pool : Pool) (r : MEVRand)
    (t : AttackTimes) : MEVAttackResult :=
  let victim_tx : Transaction :=
    { hash := "victim", from_address := "victim_address"
    , to_address := pool.address
    , amount := uniform 100 1000 r.u_victim_amount
    , gas_price := 20, gas_limit := 21000
    , timestamp := t.t_mid, nonce := r.victim_nonce }
  let front_tx : Transaction :=
    { hash := "front", from_address := bot.address
    , to_address := pool.address
    , amount := victim_tx.amount * (1/2)
    , gas_price := victim_tx.gas_price * bot.gas_price_multiplier
    , gas_limit := 21000
    , timestamp := victim_tx.timestamp - 1, nonce := r.front_nonce }
  let back_tx : Transaction :=
    { hash := "back", from_address := bot.address
    , to_address := pool.address
    , amount := victim_tx.amount * (3/10)
    , gas_price := victim_tx.gas_price * bot.gas_price_multiplier
    , gas_limit := 21000
    , timestamp := victim_tx.timestamp + 1, nonce := r.back_nonce }
  let profit : ℚ :=
    if r.p_success < bot.success_rate then uniform 10 500 r.u_profit else 0
  let success : Bool := decide (profit > 0)
  let detection_time : ℚ := t.t_end - t.t_start
  { attack_type := AttackType.sandwich.value
  , bot_id := bot.id
  , pool_address := pool.address
  , profit := profit
  , success := success
  , detection_time := detection_time
  , timestamp := t.t_end }

/-- MEVSimulator._simulate_front_running_attack. -/
def simulate_front_running_attack (bot : MEVBot) (pool : Pool) (r : MEVRand)
    (t : AttackTimes) : MEVAttackResult :=
  let victim_tx : Transaction :=
    { hash := "victim", from_address := "victim_address"
    , to_address := pool.address
    , amount := uniform 100 1000 r.u_victim_amount
    , gas_price := 20, gas_limit := 21000
    , timestamp := t.t_mid, nonce := r.victim_nonce }
  let front_tx : Transaction :=
    { hash := "front", from_address := bot.address
    , to_address := pool.address
    , amount := victim_tx.amount * (4/5)
    , gas_price := victim_tx.gas_price * bot.gas_price_multiplier
    , gas_limit := 21000
    , timestamp := victim_tx.timestamp - 1, nonce := r.front_nonce }
  let profit : ℚ :=
    if r.p_success < bot.success_rate then uniform 5 200 r.u_profit else 0
  let success : Bool := decide (profit > 0)
  let detection_time : ℚ := t.t_end - t.t_start
  { attack_type := AttackType.frontRunning.value
  , bot_id := bot.id
  , pool_address := pool.address
  , profit := profit
  , success := success
  , detection_time := detection_time
  , timestamp := t.t_end }

/-- MEVSimulator._simulate_arbitrage_attack. -/
def simulate_arbitrage_attack (bot : MEVBot) (pool : Pool) (r : MEVRand)
    (t : AttackTimes) : MEVAttackResult :=
  let price_difference : ℚ := uniform (1/100) (1/20) r.u_price_difference
  let arbitrage_tx : Transaction :=
    { hash := "arb", from_address := bot.address
    , to_address := pool.address
    , amount := uniform 1000 10000 r.u_amount
    , gas_price := 20 * bot.gas_price_multiplier
    , gas_limit := 21000
    , timestamp := t.t_mid, nonce := r.victim_nonce }
  let profit : ℚ :=
    if r.p_success < bot.success_rate then
      uniform 50 1000 r.u_profit * price_difference
    else 0
  let success : Bool := decide (profit > 0)
  let detection_time : ℚ := t.t_end - t.t_start
  { attack_type := AttackType.arbitrage.value
  , bot_id := bot.id
  , pool_address := pool.address
  , profit := profit
  , success := success
  , detection_time := detection_time
  , timestamp := t.t_end }

/-- Mutable state of an MEVSimulator instance (the lists initialised in
__init__ and used by the run loop). -/
structure MEVState where
  bots : List MEVBot
  pools : List Pool
  attacks : List MEVAttackResult
deriving DecidableEq

/-- Inputs of one iteration of MEVSimulator._run_attack_simulation:
the wall-clock reading at the loop head, the randomly chosen bot and pool,
the attack type drawn from the bot's capabilities, and the random draws and
clock readings consumed inside the iteration. -/
structure MEVIter where
  clock : ℚ
  bot : MEVBot
  pool : Pool
  chosen : AttackType
  rand : MEVRand
  times : AttackTimes
deriving DecidableEq

/-- The record produced by one loop iteration: none when the bot has no
available attack types (continue) or when the dispatch falls through to the
final else branch (continue), otherwise the result of the dispatched
attack function. -/
def iterRecord? (it : MEVIter) : Option MEVAttackResult :=
  if it.bot.attack_types = [] then none
  else
    match it.chosen with
    | .sandwich => some (simulate_sandwich_attack it.bot it.pool it.rand it.times)
    | .frontRunning => some (simulate_front_running_attack it.bot it.pool it.rand it.times)
    | .arbitrage => some (simulate_arbitrage_attack it.bot it.pool it.rand it.times)
    | .backRunning => none

/-- The body of the try-block of one run-loop iteration: dispatch on the
attack type and append the produced record to self.attacks. -/
def stepBody (s : MEVState) (it : MEVIter) : Except PyError MEVState :=
  Except.ok
    (match iterRecord? it with
     | some rec => { s with attacks := s.attacks ++ [rec] }
     | none => s)

/-- The try/except wrapper around one iteration body: an exception is
logged and the state is left unchanged. -/
def catchStep (body : MEVState → MEVIter → Except PyError MEVState)
    (s : MEVState) (it : MEVIter) : MEVState :=
  match body s it with
  | .ok s' => s'
  | .error _ => s

/-- The while-loop of MEVSimulator._run_attack_simulation, parameterised by
the iteration body so that the catch-and-continue harness can be stated for
an arbitrary body: repeat while the clock reading at the loop head is below
end_time, running each iteration inside try/except. -/
def loopWith (body : MEVState → MEVIter → Except PyError MEVState) :
    List MEVIter → ℚ → MEVState → MEVState
  | [], _, s => s
  | it :: rest, end_time, s =>
    if it.clock < end_time then
      loopWith body rest end_time (catchStep body s it)
    else s

/-- MEVSimulator._run_attack_simulation. -/
def run_attack_simulation (sched : List MEVIter) (end_time : ℚ)
    (s : MEVState) : MEVState :=
  loopWith stepBody sched end_time s

/-- The records produced by the iterations the loop actually executes:
the longest prefix of the schedule whose loop-head clock readings are below
end_time, with the skipped iterations filtered out. -/
def producedRecords (end_time : ℚ) (sched : List MEVIter) :
    List MEVAttackResult :=
  (sched.takeWhile (fun it => decide (it.clock < end_time))).filterMap iterRecord?

/-- The simulation_summary part of the report of
MEVSimulator._generate_report. -/
structure MEVReport where
  total_attacks : ℕ
  successful_attacks : ℕ
  success_rate : ℚ
  total_profit : ℚ
  average_detection_time : Option ℚ
deriving DecidableEq

/-- MEVSimulator._generate_report: build the report from self.attacks and
save it; the summary guards success_rate with a total_attacks > 0 check and
models np.mean of an empty list as none.  The second component is the
exception raised after the report is saved: the final log line divides
successful_attacks by total_attacks unguarded, a ZeroDivisionError when the
attacks list is empty. -/
def generate_report (attacks : List MEVAttackResult) :
    MEVReport × Option PyError :=
  let total_attacks := attacks.length
  let successful_attacks := (attacks.filter (fun a => a.success)).length
  let total_profit :=
    (((attacks.filter (fun a => a.success)).map (fun a => a.profit))).sum
  let average_detection_time : Option ℚ :=
    if attacks.length = 0 then none
    else some (((attacks.map (fun a => a.detection_time)).sum) / attacks.length)
  let report : MEVReport :=
    { total_attacks := total_attacks
    , successful_attacks := successful_attacks
    , success_rate :=
        if total_attacks > 0 then (successful_attacks : ℚ) / total_attacks else 0
    , total_profit := total_profit
    , average_detection_time := average_detection_time }
  (report, if total_attacks = 0 then some PyError.zeroDivisionError else none)

/-- MEVSimulator.run_simulation after environment setup: run the attack
loop, then generate the report from the final attacks list. -/
def run_simulation (sched : List MEVIter) (end_time : ℚ) (s : MEVState) :
    MEVState × (MEVReport × Option PyError) :=
  let s' := run_attack_simulation sched end_time s
  (s', generate_report s'.attacks)

/-- The default attack_patterns of the AttackConfig pydantic model. -/
def defaultAttackPatterns : List String :=
  ["sandwich_attack", "front_running", "back_running", "arbitrage_attack"]

end MEV

namespace DDoS

/-- ddos_simulator.py TargetService dataclass (claim-relevant fields). -/
structure TargetService where
  name : String
  port : ℤ
  max_connections : ℤ
  current_connections : ℤ
  is_vulnerable : Bool
  protection_level : ℚ
deriving DecidableEq

/-- ddos_simulator.py DDoSAttacker dataclass (claim-relevant fields). -/
structure DDoSAttacker where
  id : String
  bot_count : ℤ
  attack_power : ℚ
  success_rate : ℚ
  max_attack_intensity : ℚ
deriving DecidableEq

/-- Random draws consumed by DDoSSimulator._simulate_network_flooding. -/
structure FloodRand where
  u_intensity : ℚ
  u_duration : ℚ
  u_bandwidth : ℚ
deriving DecidableEq

/-- The attack_result dict of DDoSSimulator._simulate_network_flooding;
note that it has no profit key. -/
structure DDoSAttackResult where
  attack_type : String
  attacker_id : String
  target_name : String
  flood_intensity : ℚ
  flood_duration : ℚ
  packets_per_second : ℤ
  total_packets : ℚ
  bandwidth_consumption : ℚ
  can_handle_flood : Bool
  success : Bool
  detection_time : ℚ
  timestamp : ℚ
deriving DecidableEq

/-- DDoSSimulator._simulate_network_flooding: success is decided from the
target's protection level and vulnerability flag; no profit is computed. -/
def simulate_network_flooding (attacker : DDoSAttacker)
    (target : TargetService) (r : FloodRand) (t : AttackTimes) :
    DDoSAttackResult :=
  let flood_intensity : ℚ :=
    min (uniform (1/2) 2 r.u_intensity) attacker.max_attack_intensity
  let flood_duration : ℚ := uniform 10 300 r.u_duration
  let packets_per_second : ℤ := ⌊1000 * flood_intensity⌋
  let total_packets : ℚ := (packets_per_second : ℚ) * flood_duration
  let bandwidth_consumption : ℚ :=
    flood_intensity * uniform (1/10) (4/5) r.u_bandwidth
  let can_handle_flood : Bool :=
    decide (target.protection_level > flood_intensity * (1/2))
  let success : Bool := !can_handle_flood && target.is_vulnerable
  let detection_time : ℚ := t.t_end - t.t_start
  { attack_type := "network_flooding"
  , attacker_id := attacker.id
  , target_name := target.name
  , flood_intensity := flood_intensity
  , flood_duration := flood_duration
  , packets_per_second := packets_per_second
  , total_packets := total_packets
  , bandwidth_consumption := bandwidth_consumption
  , can_handle_flood := can_handle_flood
  , success := success
  , detection_time := detection_time
  , timestamp := t.t_end }

/-- The dict literal built by _simulate_network_flooding, key for key in
source order, as an association list. -/
def networkFloodingDict (res : DDoSAttackResult) : List (String × PyVal) :=
  [ ("attack_type", PyVal.str res.attack_type)
  , ("attacker_id", PyVal.str res.attacker_id)
  , ("target_name", PyVal.str res.target_name)
  , ("flood_intensity", PyVal.num res.flood_intensity)
  , ("flood_duration", PyVal.num res.flood_duration)
  , ("packets_per_second", PyVal.num res.packets_per_second)
  , ("total_packets", PyVal.num res.total_packets)
  , ("bandwidth_consumption", PyVal.num res.bandwidth_consumption)
  , ("can_handle_flood", PyVal.bool res.can_handle_flood)
  , ("success", PyVal.bool res.success)
  , ("detection_time", PyVal.num res.detection_time)
  , ("timestamp", PyVal.num res.timestamp) ]

end DDoS

namespace Social

/-- social_engineering_simulator.py TargetUser dataclass
(claim-relevant fields). -/
structure TargetUser where
  id : String
  security_awareness : ℚ
  trust_level : ℚ
  is_vulnerable : Bool
deriving DecidableEq

/-- social_engineering_simulator.py SocialEngineeringAttacker dataclass
(claim-relevant fields). -/
structure SEAttacker where
  id : String
  attack_sophistication : ℚ
  success_rate : ℚ
  social_skills : ℚ
deriving DecidableEq

/-- Random draws consumed by _simulate_phishing_attack. -/
structure PhishingRand where
  u_sophistication : ℚ
  method : String
  content_type : String
  p_response : ℚ
deriving DecidableEq

/-- The attack_result dict of _simulate_phishing_attack; it has no
profit key. -/
structure PhishingResult where
  attack_type : String
  attacker_id : String
  target_id : String
  phishing_sophistication : ℚ
  method : String
  content_type : String
  success_probability : ℚ
  target_response : Bool
  success : Bool
  detection_time : ℚ
  timestamp : ℚ
deriving DecidableEq

/-- SocialEngineeringSimulator._simulate_phishing_attack: success is the
sampled target response conjoined with the vulnerability flag; no profit is
computed. -/
def simulate_phishing_attack (attacker : SEAttacker) (target : TargetUser)
    (r : PhishingRand) (t : AttackTimes) : PhishingResult :=
  let phishing_sophistication : ℚ :=
    attacker.attack_sophistication * uniform (1/2) 1 r.u_sophistication
  let success_probability : ℚ :=
    phishing_sophistication * attacker.social_skills *
      (1 - target.security_awareness) * target.trust_level
  let target_response : Bool := decide (r.p_response < success_probability)
  let success : Bool := target_response && target.is_vulnerable
  let detection_time : ℚ := t.t_end - t.t_start
  { attack_type := "phishing_attack"
  , attacker_id := attacker.id
  , target_id := target.id
  , phishing_sophistication := phishing_sophistication
  , method := r.method
  , content_type := r.content_type
  , success_probability := success_probability
  , target_response := target_response
  , success := success
  , detection_time := detection_time
  , timestamp := t.t_end }

end Social

namespace FlashLoan

/-- flash_loan_simulator.py FlashLoanAttacker dataclass
(claim-relevant fields). -/
structure FlashLoanAttacker where
  id : String
  address : String
  balance : ℚ
  success_rate : ℚ
  max_loan_amount : ℚ
deriving DecidableEq

/-- flash_loan_simulator.py FlashLoan dataclass. -/
structure FlashLoan where
  amount : ℚ
  token : String
  borrower : String
  timestamp : ℚ
  duration : ℚ
  fee : ℚ
deriving DecidableEq

/-- The attack_result dict of _simulate_price_manipulation_attack
(claim-relevant keys). -/
structure FlashAttackResult where
  attack_type : String
  attacker_id : String
  pool_address : String
  loan_amount : ℚ
  manipulation_amount : ℚ
  price_impact : ℚ
  profit : ℚ
  success : Bool
  detection_time : ℚ
  timestamp : ℚ
deriving DecidableEq

/-- Mutable state of a FlashLoanSimulator instance: the lists initialised
in __init__. -/
structure FlashLoanState where
  attackers : List FlashLoanAttacker
  pools : List MEV.Pool
  attacks : List FlashAttackResult
  flash_loans : List FlashLoan
deriving DecidableEq

/-- Random draws consumed by _simulate_price_manipulation_attack. -/
structure PriceManipRand where
  chosen_loan_amount : ℚ
  pick_token_a : Bool
  u_duration : ℚ
  u_profit_multiplier : ℚ
deriving DecidableEq

/-- FlashLoanSimulator._simulate_price_manipulation_attack.  The function
creates a FlashLoan and appends it to self.flash_loans (a mutation of
simulator state beyond the caller's append to self.attacks), then computes
price impact, profit and success and returns the attack result together
with the mutated state. -/
def simulate_price_manipulation_attack (state : FlashLoanState)
    (attacker : FlashLoanAttacker) (pool : MEV.Pool) (r : PriceManipRand)
    (t : AttackTimes) : FlashAttackResult × FlashLoanState :=
  let loan_amount : ℚ := min r.chosen_loan_amount attacker.max_loan_amount
  let loan_token : String := if r.pick_token_a then pool.token_a else pool.token_b
  let flash_loan : FlashLoan :=
    { amount := loan_amount
    , token := loan_token
    , borrower := attacker.address
    , timestamp := t.t_mid
    , duration := uniform (1/10) (1/2) r.u_duration
    , fee := loan_amount * (9/10000) }
  let state1 : FlashLoanState :=
    { state with flash_loans := state.flash_loans ++ [flash_loan] }
  let manipulation_amount : ℚ := loan_amount * (4/5)
  let price_impact : ℚ :=
    if r.pick_token_a then manipulation_amount / pool.reserve_a
    else manipulation_amount / pool.reserve_b
  let profit : ℚ :=
    loan_amount * uniform (1/100) (1/20) r.u_profit_multiplier - flash_loan.fee
  let success : Bool := decide (profit > 0 ∧ price_impact > 1/100)
  let detection_time : ℚ := t.t_end - t.t_start
  ( { attack_type := "price_manipulation"
    , attacker_id := attacker.id
    , pool_address := pool.address
    , loan_amount := loan_amount
    , manipulation_amount := manipulation_amount
    , price_impact := price_impact
    , profit := profit
    , success := success
    , detection_time := detection_time
    , timestamp := t.t_end }
  , state1 )

end FlashLoan

namespace Oracle

/-- oracle_simulator.py OraclePrice dataclass. -/
structure OraclePrice where
  source : String
  token : String
  price : ℚ
  timestamp : ℚ
  confidence : ℚ
  deviation : ℚ
deriving DecidableEq

/-- One price created inside _initialize_oracle_prices for one pair and one
source: a small variation around the base price and a sampled confidence. -/
def initialize_oracle_price (sourceName pair : String) (base_price : ℚ)
    (u_var u_conf tnow : ℚ) : OraclePrice :=
  { source := sourceName
  , token := pair
  , price := base_price * uniform (99/100) (101/100) u_var
  , timestamp := tnow
  , confidence := uniform (4/5) 1 u_conf
  , deviation := 0 }

/-- oracle_simulator.py OracleManipulator dataclass
(claim-relevant fields). -/
structure OracleManipulator where
  id : String
  balance : ℚ
  success_rate : ℚ
  max_manipulation_amount : ℚ
deriving DecidableEq

/-- Random draws consumed by _simulate_price_flash_loan_attack. -/
structure PriceFlashRand where
  target_source : OraclePrice
  u_loan : ℚ
  u_impact : ℚ
  u_profit : ℚ
deriving DecidableEq

/-- The attack_result dict of _simulate_price_flash_loan_attack
(claim-relevant keys). -/
structure OracleAttackResult where
  attack_type : String
  manipulator_id : String
  target_pair : String
  flash_loan_amount : ℚ
  manipulation_impact : ℚ
  original_price : ℚ
  manipulated_price : ℚ
  profit : ℚ
  success : Bool
  detected : Bool
  detection_time : ℚ
  timestamp : ℚ
deriving DecidableEq

/-- The body of _simulate_price_flash_loan_attack after the empty-price
early return: manipulate the randomly chosen source price and build the
attack result as in the source. -/
def price_flash_loan_attack_core (manipulator : OracleManipulator)
    (target_pair : String) (r : PriceFlashRand) (t : AttackTimes) :
    OracleAttackResult :=
  let target_source := r.target_source
  let flash_loan_amount : ℚ :=
    min (uniform 100000 1000000 r.u_loan) manipulator.max_manipulation_amount
  let manipulation_impact : ℚ := uniform (1/20) (1/5) r.u_impact
  let manipulated_price : OraclePrice :=
    { source := target_source.source
    , token := target_pair
    , price := target_source.price * (1 + manipulation_impact)
    , timestamp := t.t_end
    , confidence := target_source.confidence * (1/2)
    , deviation := manipulation_impact }
  let profit : ℚ :=
    flash_loan_amount * manipulation_impact * uniform (1/10) (1/2) r.u_profit
  let consensus_threshold : ℚ := 1/10
  let is_detected : Bool := decide (manipulation_impact > consensus_threshold)
  let success : Bool := decide (profit > 0) && !is_detected
  let detection_time : ℚ := t.t_end - t.t_start
  { attack_type := "price_flash_loan"
  , manipulator_id := manipulator.id
  , target_pair := target_pair
  , flash_loan_amount := flash_loan_amount
  , manipulation_impact := manipulation_impact
  , original_price := target_source.price
  , manipulated_price := manipulated_price.price
  , profit := profit
  , success := success
  , detected := is_detected
  , detection_time := detection_time
  , timestamp := t.t_end }

/-- OracleSimulator._simulate_price_flash_loan_attack.  When the price list
for the pair is empty the source returns an error dict early, modelled as
none; otherwise the randomly chosen source price is manipulated and the
result computed as in the source. -/
def simulate_price_flash_loan_attack (manipulator : OracleManipulator)
    (target_pair : String) (current_prices : List OraclePrice)
    (r : PriceFlashRand) (t : AttackTimes) : Option OracleAttackResult :=
  if current_prices = [] then none
  else some (price_flash_loan_attack_core manipulator target_pair r t)

end Oracle

namespace Reentrancy

/-- reentrancy_simulator.py SmartContract dataclass
(claim-relevant fields). -/
structure SmartContract where
  address : String
  balance : ℚ
  is_vulnerable : Bool
deriving DecidableEq

/-- reentrancy_simulator.py ReentrancyAttacker dataclass
(claim-relevant fields). -/
structure ReentrancyAttacker where
  id : String
  max_attack_amount : ℚ
deriving DecidableEq

/-- Random draws consumed by _simulate_single_function_reentrancy. -/
structure ReentrancyRand where
  u_amount : ℚ
  recursive_calls : ℕ
deriving DecidableEq

/-- The attack_result dict of _simulate_single_function_reentrancy.  The
early return for a non-vulnerable contract omits the numeric keys, modelled
as none. -/
structure ReentrancyResult where
  attack_type : String
  attacker_id : String
  contract_address : String
  attack_amount : Option ℚ
  total_drained : Option ℚ
  recursive_calls : Option ℕ
  profit : Option ℚ
  success : Bool
  detection_time : Option ℚ
  timestamp : ℚ
deriving DecidableEq

/-- The for-loop of _simulate_single_function_reentrancy: recursive_calls
additions of attack_amount / recursive_calls to a zero accumulator. -/
def totalDrained (attack_amount : ℚ) (recursive_calls : ℕ) : ℚ :=
  (List.range recursive_calls).foldl
    (fun acc _ => acc + attack_amount / (recursive_calls : ℚ)) 0

/-- ReentrancySimulator._simulate_single_function_reentrancy. -/
def simulate_single_function_reentrancy (attacker : ReentrancyAttacker)
    (contract : SmartContract) (r : ReentrancyRand) (t : AttackTimes) :
    ReentrancyResult :=
  if contract.is_vulnerable = false then
    { attack_type := "single_function"
    , attacker_id := attacker.id
    , contract_address := contract.address
    , attack_amount := none
    , total_drained := none
    , recursive_calls := none
    , profit := none
    , success := false
    , detection_time := none
    , timestamp := t.t_start }
  else
    let attack_amount : ℚ :=
      min (uniform 1000 10000 r.u_amount) attacker.max_attack_amount
    let total := totalDrained attack_amount r.recursive_calls
    let profit : ℚ := total - attack_amount
    let success : Bool := decide (profit > 0 ∧ total ≤ contract.balance)
    let detection_time : ℚ := t.t_end - t.t_start
    { attack_type := "single_function"
    , attacker_id := attacker.id
    , contract_address := contract.address
    , attack_amount := some attack_amount
    , total_drained := some total
    , recursive_calls := some r.recursive_calls
    , profit := some profit
    , success := success
    , detection_time := some detection_time
    , timestamp := t.t_end }

end Reentrancy

namespace Script

/-- The attack_result dict of
SandwichAttackSimulator.simulate_sandwich_attack (simulate_sandwich_attack.py).
The dict literal is never completed in the source, so no value of this type
is ever produced. -/
structure ScriptRecord where
  attack_type : String
  timestamp : ℚ
  victim_amount : ℚ
  front_amount : ℚ
  back_amount : ℚ
  victim_expected_output : ℚ
  victim_actual_output : ℚ
  profit : ℚ
  success : Bool
  detection_time : ℚ
  price_impact : ℚ
  gas_cost : ℚ
  net_profit : ℚ
deriving DecidableEq

/-- Mutable state of a SandwichAttackSimulator instance: the attacks list. -/
structure ScriptState where
  attacks : List ScriptRecord
deriving DecidableEq

/-- SandwichAttackSimulator.simulate_sandwich_attack.  The AMM arithmetic
is computed as in the source, with each Python float division raising
ZeroDivisionError on a zero divisor; building the attack_result dict then
reads the undefined name victim_expected_output (the computed local is
named victim_output) at the price_impact entry, a NameError, so the
function never returns a record and never appends to self.attacks. -/
def simulate_sandwich_attack (state : ScriptState) (victim_amount : ℚ)
    (reserve_a reserve_b : ℚ) (t : AttackTimes) :
    Except PyError (ScriptRecord × ScriptState) :=
  if reserve_a + victim_amount = 0 then Except.error PyError.zeroDivisionError else
  let victim_output := victim_amount * reserve_b / (reserve_a + victim_amount)
  let front_amount := victim_amount * (3/10)
  if reserve_a + front_amount = 0 then Except.error PyError.zeroDivisionError else
  let front_output := front_amount * reserve_b / (reserve_a + front_amount)
  let new_reserve_a := reserve_a + front_amount
  let new_reserve_b := reserve_b - front_output
  if new_reserve_a + victim_amount = 0 then Except.error PyError.zeroDivisionError else
  let victim_actual_output :=
    victim_amount * new_reserve_b / (new_reserve_a + victim_amount)
  let back_amount := front_output + victim_actual_output * (1/10)
  if new_reserve_b + back_amount = 0 then Except.error PyError.zeroDivisionError else
  let back_output := back_amount * new_reserve_a / (new_reserve_b + back_amount)
  let profit := back_output - front_amount
  let detection_time := t.t_end - t.t_start
  let success : Bool := decide (profit > 0 ∧ detection_time < 5)
  Except.error PyError.nameError

/-- Inputs of one iteration of SandwichAttackSimulator.run_simulation:
the wall-clock reading at the loop head, the reserves of the randomly
chosen pool config, the victim-amount seed and the clock readings of the
attack call. -/
structure ScriptIter where
  clock : ℚ
  reserve_a : ℚ
  reserve_b : ℚ
  u_victim : ℚ
  times : AttackTimes
deriving DecidableEq

/-- The while-loop of SandwichAttackSimulator.run_simulation: repeat while
the clock reading at the loop head is below end_time; the attack call is
NOT wrapped in try/except, so an exception it raises propagates and
terminates the loop. -/
def run_loop : List ScriptIter → ℚ → ScriptState → Except PyError ScriptState
  | [], _, s => Except.ok s
  | it :: rest, end_time, s =>
    if it.clock < end_time then
      match simulate_sandwich_attack s (uniform 100 10000 it.u_victim)
          it.reserve_a it.reserve_b it.times with
      | Except.ok (_, s') => run_loop rest end_time s'
      | Except.error e => Except.error e
    else Except.ok s

/-- The summary dict of SandwichAttackSimulator._generate_summary. -/
structure ScriptSummary where
  total_attacks : ℕ
  successful_attacks : ℕ
  success_rate : ℚ
  total_profit : ℚ
  average_detection_time : ℚ
  average_profit_per_successful_attack : ℚ
deriving DecidableEq

/-- SandwichAttackSimulator._generate_summary: the avg_detection_time line
divides by total_attacks unguarded, so the summary raises
ZeroDivisionError when the attacks list is empty. -/
def generate_summary (attacks : List ScriptRecord) :
    Except PyError ScriptSummary :=
  let total_attacks := attacks.length
  let successful_attacks := (attacks.filter (fun a => a.success)).length
  let total_profit :=
    ((attacks.filter (fun a => a.success)).map (fun a => a.net_profit)).sum
  if total_attacks = 0 then Except.error PyError.zeroDivisionError
  else
    Except.ok
      { total_attacks := total_attacks
      , successful_attacks := successful_attacks
      , success_rate :=
          if total_attacks > 0 then (successful_attacks : ℚ) / total_attacks else 0
      , total_profit := total_profit
      , average_detection_time :=
          ((attacks.map (fun a => a.detection_time)).sum) / total_attacks
      , average_profit_per_successful_attack :=
          if successful_attacks > 0 then total_profit / successful_attacks else 0 }

end Script

/-! Concrete entities and inputs, matching the ranges the factories use,
for instantiating the theorems. -/

/-- Concrete wall-clock readings: entry at 0, sampling call at 1. -/
def sampleTimes : AttackTimes := { t_start := 0, t_mid := 0, t_end := 1 }

/-- A concrete MEV bot within the factory ranges. -/
def sampleBot : MEV.MEVBot :=
  { id := "bot_0", address := "0xabc", balance := 1000
  , gas_price_multiplier := 3/2, success_rate := 1/2
  , attack_types := [MEV.AttackType.sandwich] }

/-- A concrete MEV bot capable only of back-running. -/
def sampleBackBot : MEV.MEVBot :=
  { id := "bot_1", address := "0xabd", balance := 2000
  , gas_price_multiplier := 6/5, success_rate := 2/5
  , attack_types := [MEV.AttackType.backRunning] }

/-- The first pool of MEVSimulator._create_pools. -/
def samplePool : MEV.Pool :=
  { address := "pool_0", token_a := "USDC", token_b := "USDT"
  , reserve_a := 1000000, reserve_b := 1000000, fee := 3/1000 }

/-- Concrete random draws for an MEV attack call that succeeds. -/
def sampleMEVRand : MEV.MEVRand :=
  { u_victim_amount := 0, u_amount := 0, u_price_difference := 0
  , p_success := 0, u_profit := 0
  , victim_nonce := 1, front_nonce := 2, back_nonce := 3 }

/-- A concrete MEV run-loop iteration dispatching a sandwich attack. -/
def sampleIter : MEV.MEVIter :=
  { clock := 0, bot := sampleBot, pool := samplePool
  , chosen := MEV.AttackType.sandwich, rand := sampleMEVRand
  , times := sampleTimes }

/-- A concrete MEV run-loop iteration whose bot drew BACK_RUNNING. -/
def sampleBackIter : MEV.MEVIter :=
  { clock := 0, bot := sampleBackBot, pool := samplePool
  , chosen := MEV.AttackType.backRunning, rand := sampleMEVRand
  , times := sampleTimes }

/-- The MEV simulator state right after environment setup. -/
def sampleMEVState : MEV.MEVState :=
  { bots := [sampleBot, sampleBackBot], pools := [samplePool], attacks := [] }

/-- A body that raises on every iteration, for instantiating the
catch-and-continue theorem. -/
def errBody : MEV.MEVState → MEV.MEVIter → Except PyError MEV.MEVState :=
  fun _ _ => Except.error PyError.nameError

/-- Concrete factory draws for one MEV bot. -/
def sampleBotSeed : MEV.BotSeed :=
  { address := "0xabc", u_balance := 0, u_gas := 0, u_success := 0
  , attack_types := [MEV.AttackType.sandwich] }

/-- A concrete MEV run-loop iteration whose loop-head clock reading is
past the end of the simulation window. -/
def sampleLateIter : MEV.MEVIter :=
  { clock := 100, bot := sampleBot, pool := samplePool
  , chosen := MEV.AttackType.sandwich, rand := sampleMEVRand
  , times := sampleTimes }

/-- A concrete DDoS attacker within the factory ranges. -/
def sampleDDoSAttacker : DDoS.DDoSAttacker :=
  { id := "ddos_attacker_0", bot_count := 1000, attack_power := 1/2
  , success_rate := 1/2, max_attack_intensity := 2 }

/-- A concrete vulnerable, weakly protected target service. -/
def sampleDDoSTarget : DDoS.TargetService :=
  { name := "web_server_0", port := 80, max_connections := 1000
  , current_connections := 10, is_vulnerable := true
  , protection_level := 3/10 }

/-- Concrete draws making the network flood overwhelm the target. -/
def sampleFloodRand : DDoS.FloodRand :=
  { u_intensity := 1, u_duration := 0, u_bandwidth := 0 }

/-- A concrete social-engineering attacker with maximal skills. -/
def sampleSEAttacker : Social.SEAttacker :=
  { id := "social_engineering_attacker_0", attack_sophistication := 1
  , success_rate := 1/2, social_skills := 1 }

/-- A concrete vulnerable, fully trusting target user. -/
def sampleSETarget : Social.TargetUser :=
  { id := "target_user_0", security_awareness := 0, trust_level := 1
  , is_vulnerable := true }

/-- Concrete draws making the phishing attack land. -/
def samplePhishingRand : Social.PhishingRand :=
  { u_sophistication := 1, method := "email"
  , content_type := "urgent_action", p_response := 0 }

/-- A concrete flash-loan attacker within the factory ranges. -/
def sampleFlashAttacker : FlashLoan.FlashLoanAttacker :=
  { id := "attacker_0", address := "0xdef", balance := 10000
  , success_rate := 1/2, max_loan_amount := 1000000 }

/-- The first pool of FlashLoanSimulator._create_pools. -/
def sampleFlashPool : MEV.Pool :=
  { address := "pool_0", token_a := "USDC", token_b := "USDT"
  , reserve_a := 10000000, reserve_b := 10000000, fee := 3/1000 }

/-- The flash-loan simulator state right after environment setup. -/
def sampleFlashState : FlashLoan.FlashLoanState :=
  { attackers := [sampleFlashAttacker], pools := [sampleFlashPool]
  , attacks := [], flash_loans := [] }

/-- Concrete draws making the price-manipulation attack succeed. -/
def sampleManipRand : FlashLoan.PriceManipRand :=
  { chosen_loan_amount := 1000000, pick_token_a := true
  , u_duration := 0, u_profit_multiplier := 1 }

/-- A concrete initial oracle price feed. -/
def sampleOraclePrice : Oracle.OraclePrice :=
  { source := "chainlink", token := "SOL/USD", price := 100
  , timestamp := 0, confidence := 9/10, deviation := 0 }

/-- A concrete oracle manipulator within the factory ranges. -/
def sampleOracleManipulator : Oracle.OracleManipulator :=
  { id := "manipulator_0", balance := 10000, success_rate := 1/2
  , max_manipulation_amount := 200000 }

/-- Concrete draws making the price-flash-loan attack succeed
undetected. -/
def samplePriceFlashRand : Oracle.PriceFlashRand :=
  { target_source := sampleOraclePrice, u_loan := 0, u_impact := 0
  , u_profit := 0 }

/-- A concrete vulnerable smart contract. -/
def sampleContract : Reentrancy.SmartContract :=
  { address := "contract_0", balance := 100000, is_vulnerable := true }

/-- A concrete reentrancy attacker. -/
def sampleReentrancyAttacker : Reentrancy.ReentrancyAttacker :=
  { id := "attacker_0", max_attack_amount := 5000 }

/-- Concrete draws for a single-function reentrancy attack. -/
def sampleReentrancyRand : Reentrancy.ReentrancyRand :=
  { u_amount := 0, recursive_calls := 4 }

/-- A concrete sandwich-script iteration over the large pool, with the
loop-head clock reading 0. -/
def sampleScriptIter1 : Script.ScriptIter :=
  { clock := 0, reserve_a := 1000000, reserve_b := 1000000
  , u_victim := 0, times := sampleTimes }

/-- A second concrete sandwich-script iteration over the medium pool. -/
def sampleScriptIter2 : Script.ScriptIter :=
  { clock := 1, reserve_a := 100000, reserve_b := 100000
  , u_victim := 0, times := sampleTimes }

/-! Helper lemmas shared by the claim theorems. -/

/-- A genuine uniform draw lies within its configured range. -/
theorem uniform_mem {a b u : ℚ} (hab : a ≤ b) (h0 : 0 ≤ u) (h1 : u ≤ 1) :
    a ≤ uniform a b u ∧ uniform a b u ≤ b := by
  unfold uniform
  constructor
  · nlinarith
  · nlinarith

/-- Folding a constant addition over a list adds length-many copies. -/
theorem foldl_add_const (c : ℚ) :
    ∀ (l : List ℕ) (acc : ℚ),
      l.foldl (fun x _ => x + c) acc = acc + l.length * c := by
  intro l
  induction l with
  | nil => intro acc; simp
  | cons a l ih =>
    intro acc
    simp only [List.foldl_cons, ih, List.length_cons]
    push_cast
    ring

/-- In exact arithmetic the reentrancy drain loop recovers exactly the
attack amount. -/
theorem totalDrained_eq (a : ℚ) {n : ℕ} (hn : n ≠ 0) :
    Reentrancy.totalDrained a n = a := by
  unfold Reentrancy.totalDrained
  rw [foldl_add_const]
  have hcast : (n : ℚ) ≠ 0 := Nat.cast_ne_zero.mpr hn
  rw [List.length_range, zero_add, mul_div_cancel₀ _ hcast]

/-- One caught iteration of the MEV run loop appends the dispatched record
(if any) to the attacks list and touches nothing else. -/
theorem catchStep_stepBody_eq (s : MEV.MEVState) (it : MEV.MEVIter) :
    MEV.catchStep MEV.stepBody s it
      = { s with attacks := s.attacks ++ (MEV.iterRecord? it).toList } := by
  cases h : MEV.iterRecord? it with
  | none => simp [MEV.catchStep, MEV.stepBody, h]
  | some rec => simp [MEV.catchStep, MEV.stepBody, h]

/-- Folding the caught MEV step over a list of iterations appends exactly
the dispatched records, in order. -/
theorem foldl_catchStep_attacks :
    ∀ (l : List MEV.MEVIter) (s : MEV.MEVState),
      (l.foldl (MEV.catchStep MEV.stepBody) s).attacks
        = s.attacks ++ l.filterMap MEV.iterRecord? := by
  intro l
  induction l with
  | nil => intro s; simp
  | cons it l ih =>
    intro s
    rw [List.foldl_cons, ih, catchStep_stepBody_eq]
    cases h : MEV.iterRecord? it with
    | none => simp [List.filterMap_cons, h]
    | some rec => simp [List.filterMap_cons, h]

/-- The MEV while-loop runs exactly the iterations whose loop-head clock
reading is below end_time, each inside the try/except wrapper. -/
theorem loopWith_eq_foldl_takeWhile
    (body : MEV.MEVState → MEV.MEVIter → Except PyError MEV.MEVState) :
    ∀ (sched : List MEV.MEVIter) (end_time : ℚ) (s : MEV.MEVState),
      MEV.loopWith body sched end_time s
        = (sched.takeWhile (fun it => decide (it.clock < end_time))).foldl
            (MEV.catchStep body) s := by
  intro sched
  induction sched with
  | nil => intro end_time s; simp [MEV.loopWith]
  | cons it rest ih =>
    intro end_time s
    by_cases h : it.clock < end_time
    · rw [MEV.loopWith, if_pos h, ih, List.takeWhile_cons, if_pos (by simpa using h),
        List.foldl_cons]
    · rw [MEV.loopWith, if_neg h, List.takeWhile_cons, if_neg (by simpa using h),
        List.foldl_nil]

/-- A record dispatched by an MEV run-loop iteration never carries the
back_running tag. -/
theorem iterRecord?_ne_back_running (it : MEV.MEVIter)
    (rec : MEV.MEVAttackResult) (h : MEV.iterRecord? it = some rec) :
    rec.attack_type ≠ "back_running" := by
  unfold MEV.iterRecord? at h
  by_cases hb : it.bot.attack_types = []
  · simp [hb] at h
  · rw [if_neg hb] at h
    cases hc : it.chosen <;> rw [hc] at h <;> simp only [Option.some.injEq] at h
    · subst h
      show ("sandwich_attack" : String) ≠ "back_running"
      decide
    · subst h
      show ("front_running" : String) ≠ "back_running"
      decide
    · exact absurd h (by simp)
    · subst h
      show ("arbitrage_attack" : String) ≠ "back_running"
      decide

/-! Claim theorems. -/

/-- C4: every attack-result record produced by the embedded attack
functions has detection_time equal to the wall-clock reading at the
measurement point minus the recorded start reading, and nothing else. -/
theorem c4_detection_time_is_elapsed_wall_clock :
    (∀ bot pool r t, (MEV.simulate_sandwich_attack bot pool r t).detection_time
        = t.t_end - t.t_start)
  ∧ (∀ bot pool r t, (MEV.simulate_front_running_attack bot pool r t).detection_time
        = t.t_end - t.t_start)
  ∧ (∀ bot pool r t, (MEV.simulate_arbitrage_attack bot pool r t).detection_time
        = t.t_end - t.t_start)
  ∧ (∀ a tg r t, (DDoS.simulate_network_flooding a tg r t).detection_time
        = t.t_end - t.t_start)
  ∧ (∀ a tg r t, (Social.simulate_phishing_attack a tg r t).detection_time
        = t.t_end - t.t_start)
  ∧ (∀ s a p r t,
        ((FlashLoan.simulate_price_manipulation_attack s a p r t).1).detection_time
          = t.t_end - t.t_start)
  ∧ (∀ m tp r t, (Oracle.price_flash_loan_attack_core m tp r t).detection_time
        = t.t_end - t.t_start) :=
  ⟨fun _ _ _ _ => rfl, fun _ _ _ _ => rfl, fun _ _ _ _ => rfl, fun _ _ _ _ => rfl,
   fun _ _ _ _ => rfl, fun _ _ _ _ _ => rfl, fun _ _ _ _ => rfl⟩

/-- C9: on a zero-attack run, MEVSimulator._generate_report raises
ZeroDivisionError in its final log line even though the success_rate
stored in the report is guarded (and the mean detection time of the empty
list is NaN, modelled none), and the sandwich script's _generate_summary
raises ZeroDivisionError at its unguarded average. -/
theorem c9_empty_run_report_raises :
    (MEV.generate_report []).2 = some PyError.zeroDivisionError
  ∧ (MEV.generate_report []).1.success_rate = 0
  ∧ (MEV.generate_report []).1.average_detection_time = none
  ∧ Script.generate_summary [] = Except.error PyError.zeroDivisionError :=
  ⟨rfl, rfl, rfl, rfl⟩

/-- C1 (counterexample): the DDoS network-flooding attack produces a
record whose success flag is true while the record has no profit key at
all, so success is not (profit > 0 and an ad hoc condition). -/
theorem c1_counterexample :
    List.lookup ("success")
        (DDoS.networkFloodingDict
          (DDoS.simulate_network_flooding sampleDDoSAttacker sampleDDoSTarget
            sampleFloodRand sampleTimes))
      = some (PyVal.bool true)
  ∧ List.lookup ("profit")
        (DDoS.networkFloodingDict
          (DDoS.simulate_network_flooding sampleDDoSAttacker sampleDDoSTarget
            sampleFloodRand sampleTimes))
      = none := by
  constructor
  · rfl
  · rfl

/-- C1 (amended): in the MEV, flash-loan and oracle simulators each attack
function sets success to (profit > 0 and an ad hoc condition), so every
record with success = true has positive profit; the DDoS and
social-engineering simulators instead decide success from the target's
vulnerability (and protection or sampled response), computing no profit. -/
theorem c1_amended_success_implies_positive_profit :
    (∀ bot pool r t, (MEV.simulate_sandwich_attack bot pool r t).success = true →
        0 < (MEV.simulate_sandwich_attack bot pool r t).profit)
  ∧ (∀ bot pool r t, (MEV.simulate_front_running_attack bot pool r t).success = true →
        0 < (MEV.simulate_front_running_attack bot pool r t).profit)
  ∧ (∀ bot pool r t, (MEV.simulate_arbitrage_attack bot pool r t).success = true →
        0 < (MEV.simulate_arbitrage_attack bot pool r t).profit)
  ∧ (∀ s a p r t,
        ((FlashLoan.simulate_price_manipulation_attack s a p r t).1).success = true →
        0 < ((FlashLoan.simulate_price_manipulation_attack s a p r t).1).profit)
  ∧ (∀ m tp r t, (Oracle.price_flash_loan_attack_core m tp r t).success = true →
        0 < (Oracle.price_flash_loan_attack_core m tp r t).profit)
  ∧ (∀ a tg r t, (DDoS.simulate_network_flooding a tg r t).success = true →
        tg.is_vulnerable = true)
  ∧ (∀ a tg r t, (Social.simulate_phishing_attack a tg r t).success = true →
        tg.is_vulnerable = true) := by
  refine ⟨?_, ?_, ?_, ?_, ?_, ?_, ?_⟩
  · intro bot pool r t h
    exact of_decide_eq_true h
  · intro bot pool r t h
    exact of_decide_eq_true h
  · intro bot pool r t h
    exact of_decide_eq_true h
  · intro s a p r t h
    exact (of_decide_eq_true h).1
  · intro m tp r t h
    have h' := (Bool.and_eq_true _ _).mp h
    exact of_decide_eq_true h'.1
  · intro a tg r t h
    exact ((Bool.and_eq_true _ _).mp h).2
  · intro a tg r t h
    exact ((Bool.and_eq_true _ _).mp h).2

/-- Witness for C1 (amended): each success hypothesis is satisfiable at
concrete inputs. -/
theorem c1_amended_witness :
    0 < (MEV.simulate_sandwich_attack sampleBot samplePool sampleMEVRand sampleTimes).profit
  ∧ 0 < (MEV.simulate_front_running_attack sampleBot samplePool sampleMEVRand sampleTimes).profit
  ∧ 0 < (MEV.simulate_arbitrage_attack sampleBot samplePool sampleMEVRand sampleTimes).profit
  ∧ 0 < ((FlashLoan.simulate_price_manipulation_attack sampleFlashState
        sampleFlashAttacker sampleFlashPool sampleManipRand sampleTimes).1).profit
  ∧ 0 < (Oracle.price_flash_loan_attack_core sampleOracleManipulator ("SOL/USD")
        samplePriceFlashRand sampleTimes).profit
  ∧ sampleDDoSTarget.is_vulnerable = true
  ∧ sampleSETarget.is_vulnerable = true :=
  ⟨c1_amended_success_implies_positive_profit.1 sampleBot samplePool sampleMEVRand
      sampleTimes (by decide),
   c1_amended_success_implies_positive_profit.2.1 sampleBot samplePool sampleMEVRand
      sampleTimes (by decide),
   c1_amended_success_implies_positive_profit.2.2.1 sampleBot samplePool sampleMEVRand
      sampleTimes (by decide),
   c1_amended_success_implies_positive_profit.2.2.2.1 sampleFlashState
      sampleFlashAttacker sampleFlashPool sampleManipRand sampleTimes (by decide),
   c1_amended_success_implies_positive_profit.2.2.2.2.1 sampleOracleManipulator
      ("SOL/USD") samplePriceFlashRand sampleTimes (by decide),
   c1_amended_success_implies_positive_profit.2.2.2.2.2.1 sampleDDoSAttacker
      sampleDDoSTarget sampleFloodRand sampleTimes (by decide),
   c1_amended_success_implies_positive_profit.2.2.2.2.2.2 sampleSEAttacker
      sampleSETarget samplePhishingRand sampleTimes (by decide)⟩

/-- C2 (counterexample): the flash-loan price-manipulation attack function
mutates simulator state beyond the caller's append to the attacks list: it
appends the created FlashLoan to the flash_loans state list. -/
theorem c2_counterexample :
    ((FlashLoan.simulate_price_manipulation_attack sampleFlashState
        sampleFlashAttacker sampleFlashPool sampleManipRand sampleTimes).2).flash_loans
      ≠ sampleFlashState.flash_loans := by
  decide

/-- C2 (amended): an MEV run-loop iteration leaves the bots and pools
lists unchanged and at most appends one record to the attacks list; the
flash-loan attack function leaves attackers, pools and attacks unchanged
but additionally appends the created FlashLoan to flash_loans. -/
theorem c2_amended_frame :
    (∀ s it, (MEV.catchStep MEV.stepBody s it).bots = s.bots
      ∧ (MEV.catchStep MEV.stepBody s it).pools = s.pools
      ∧ ((MEV.catchStep MEV.stepBody s it).attacks = s.attacks
          ∨ ∃ rec, (MEV.catchStep MEV.stepBody s it).attacks = s.attacks ++ [rec]))
  ∧ (∀ s a p r t,
      ((FlashLoan.simulate_price_manipulation_attack s a p r t).2).attackers = s.attackers
      ∧ ((FlashLoan.simulate_price_manipulation_attack s a p r t).2).pools = s.pools
      ∧ ((FlashLoan.simulate_price_manipulation_attack s a p r t).2).attacks = s.attacks
      ∧ ∃ fl, ((FlashLoan.simulate_price_manipulation_attack s a p r t).2).flash_loans
            = s.flash_loans ++ [fl]) := by
  constructor
  · intro s it
    rw [catchStep_stepBody_eq]
    refine ⟨rfl, rfl, ?_⟩
    cases h : MEV.iterRecord? it with
    | none => left; simp
    | some rec => right; exact ⟨rec, by simp⟩
  · intro s a p r t
    exact ⟨rfl, rfl, rfl, ⟨_, rfl⟩⟩

/-- C3 (counterexample): the sandwich script's run loop has no try/except
around the attack call; the NameError raised by
simulate_sandwich_attack propagates and terminates the loop on its first
iteration, instead of the loop continuing to the next iteration. -/
theorem c3_counterexample :
    Script.run_loop [sampleScriptIter1, sampleScriptIter2] 100 { attacks := [] }
      = Except.error PyError.nameError := by
  rfl

/-- C3 (amended): in the simulator classes the run-loop body is wrapped in
try/except, so whenever the body of an iteration raises, the loop logs,
leaves the state unchanged and proceeds with the remaining schedule. -/
theorem c3_amended_catch_and_continue :
    ∀ (body : MEV.MEVState → MEV.MEVIter → Except PyError MEV.MEVState)
      (it : MEV.MEVIter) (rest : List MEV.MEVIter) (end_time : ℚ)
      (s : MEV.MEVState) (e : PyError),
      it.clock < end_time → body s it = Except.error e →
      MEV.loopWith body (it :: rest) end_time s
        = MEV.loopWith body rest end_time s := by
  intro body it rest end_time s e hclock herr
  rw [MEV.loopWith, if_pos hclock, MEV.catchStep, herr]

/-- Witness for C3 (amended): a body that raises on a concrete in-time
iteration, after which the loop continues. -/
theorem c3_amended_witness :
    MEV.loopWith errBody [sampleIter] 100 sampleMEVState
      = MEV.loopWith errBody [] 100 sampleMEVState :=
  c3_amended_catch_and_continue errBody sampleIter [] 100 sampleMEVState
    PyError.nameError (by decide) rfl

/-- C5: every record produced without an exception during the MEV run loop
is appended, in order, to the single in-memory attacks list; the report is
generated exactly once, from the attacks list as it stands after the loop
has ended, and its total count accounts for every appended record. -/
theorem c5_records_appended_and_reported_once :
    ∀ (sched : List MEV.MEVIter) (end_time : ℚ) (s : MEV.MEVState),
      (MEV.run_attack_simulation sched end_time s).attacks
        = s.attacks ++ MEV.producedRecords end_time sched
      ∧ MEV.run_simulation sched end_time s
          = (MEV.run_attack_simulation sched end_time s,
             MEV.generate_report (MEV.run_attack_simulation sched end_time s).attacks)
      ∧ ((MEV.generate_report
            ((MEV.run_attack_simulation sched end_time s).attacks)).1).total_attacks
          = s.attacks.length + (MEV.producedRecords end_time sched).length := by
  intro sched end_time s
  have h1 : (MEV.run_attack_simulation sched end_time s).attacks
      = s.attacks ++ MEV.producedRecords end_time sched := by
    unfold MEV.run_attack_simulation MEV.producedRecords
    rw [loopWith_eq_foldl_takeWhile, foldl_catchStep_attacks]
  refine ⟨h1, rfl, ?_⟩
  have h2 : ∀ l : List MEV.MEVAttackResult,
      (MEV.generate_report l).1.total_attacks = l.length := fun _ => rfl
  rw [h2, h1, List.length_append]

/-- C6 (counterexample): the sandwich script's run loop does not terminate
only by the wall-clock duration check: on a schedule whose first loop-head
clock reading is below the end time it terminates at once with the
propagated NameError. -/
theorem c6_counterexample :
    sampleScriptIter1.clock < 50
    ∧ Script.run_loop [sampleScriptIter1] 50 { attacks := [] }
        = Except.error PyError.nameError := by
  constructor
  · decide
  · rfl

/-- C6 (amended): the MEV run loop runs exactly the prefix of iterations
whose loop-head clock readings are below the end time computed before the
loop, and exits as soon as a loop-head reading reaches the end time; with
its try/except body this is its only exit.  The sandwich script's loop
body is uncaught and can exit early by a propagated exception. -/
theorem c6_amended_loop_exits_at_end_time :
    (∀ (body : MEV.MEVState → MEV.MEVIter → Except PyError MEV.MEVState)
        (sched : List MEV.MEVIter) (end_time : ℚ) (s : MEV.MEVState),
      MEV.loopWith body sched end_time s
        = (sched.takeWhile (fun it => decide (it.clock < end_time))).foldl
            (MEV.catchStep body) s)
  ∧ (∀ (body : MEV.MEVState → MEV.MEVIter → Except PyError MEV.MEVState)
        (it : MEV.MEVIter) (rest : List MEV.MEVIter) (end_time : ℚ)
        (s : MEV.MEVState),
      ¬ it.clock < end_time →
      MEV.loopWith body (it :: rest) end_time s = s) := by
  constructor
  · exact loopWith_eq_foldl_takeWhile
  · intro body it rest end_time s h
    rw [MEV.loopWith, if_neg h]

/-- Witness for C6 (amended): the loop exits immediately at a concrete
iteration whose clock reading is past the end time. -/
theorem c6_amended_witness :
    MEV.loopWith MEV.stepBody [sampleLateIter] 50 sampleMEVState = sampleMEVState :=
  c6_amended_loop_exits_at_end_time.2 MEV.stepBody sampleLateIter [] 50
    sampleMEVState (by decide)

/-- C10: the MEV run-loop dispatch handles only SANDWICH, FRONT_RUNNING
and ARBITRAGE and skips the iteration for any other attack type, so no
record with attack_type back_running is ever appended, even though
BACK_RUNNING is a member of AttackType and back_running appears in the
default attack_patterns configuration. -/
theorem c10_no_back_running_records :
    (∀ (sched : List MEV.MEVIter) (end_time : ℚ) (s : MEV.MEVState),
      (∀ rec ∈ s.attacks, rec.attack_type ≠ "back_running") →
      ∀ rec ∈ (MEV.run_attack_simulation sched end_time s).attacks,
        rec.attack_type ≠ "back_running")
  ∧ MEV.AttackType.backRunning.value = "back_running"
  ∧ "back_running" ∈ MEV.defaultAttackPatterns := by
  refine ⟨?_, rfl, by decide⟩
  intro sched end_time s hs rec hrec
  have h1 : (MEV.run_attack_simulation sched end_time s).attacks
      = s.attacks ++ MEV.producedRecords end_time sched := by
    unfold MEV.run_attack_simulation MEV.producedRecords
    rw [loopWith_eq_foldl_takeWhile, foldl_catchStep_attacks]
  rw [h1] at hrec
  rcases List.mem_append.mp hrec with h | h
  · exact hs rec h
  · unfold MEV.producedRecords at h
    obtain ⟨it, _, hsome⟩ := List.mem_filterMap.mp h
    exact iterRecord?_ne_back_running it rec hsome

/-- Witness for C10: a concrete run over a schedule containing a
back-running iteration, starting from the empty attacks list. -/
theorem c10_witness :
    (MEV.simulate_sandwich_attack sampleBot samplePool sampleMEVRand
        sampleTimes).attack_type ≠ "back_running" :=
  c10_no_back_running_records.1 [sampleIter, sampleBackIter] 100 sampleMEVState
    (by decide)
    (MEV.simulate_sandwich_attack sampleBot samplePool sampleMEVRand sampleTimes)
    (by decide)

/-- C7: genuine random draws land in their configured ranges: the MEV bot
factory fields lie in the stated construction intervals, the initial
oracle confidence lies in [0.8, 1.0], and every sampled profit stored in
an embedded attack result is non-negative (the reentrancy drain nets
exactly zero in exact arithmetic). -/
theorem c7_random_draws_within_ranges :
    (∀ (i : ℕ) (seed : MEV.BotSeed),
      0 ≤ seed.u_balance → seed.u_balance ≤ 1 →
      0 ≤ seed.u_gas → seed.u_gas ≤ 1 →
      0 ≤ seed.u_success → seed.u_success ≤ 1 →
      (100 ≤ (MEV.create_bot i seed).balance
        ∧ (MEV.create_bot i seed).balance ≤ 10000)
      ∧ (11/10 ≤ (MEV.create_bot i seed).gas_price_multiplier
        ∧ (MEV.create_bot i seed).gas_price_multiplier ≤ 2)
      ∧ (3/10 ≤ (MEV.create_bot i seed).success_rate
        ∧ (MEV.create_bot i seed).success_rate ≤ 9/10))
  ∧ (∀ (src pair : String) (bp uv uc tn : ℚ), 0 ≤ uc → uc ≤ 1 →
      4/5 ≤ (Oracle.initialize_oracle_price src pair bp uv uc tn).confidence
      ∧ (Oracle.initialize_oracle_price src pair bp uv uc tn).confidence ≤ 1)
  ∧ (∀ bot pool r t, 0 ≤ r.u_profit →
      0 ≤ (MEV.simulate_sandwich_attack bot pool r t).profit)
  ∧ (∀ bot pool r t, 0 ≤ r.u_profit →
      0 ≤ (MEV.simulate_front_running_attack bot pool r t).profit)
  ∧ (∀ bot pool r t, 0 ≤ r.u_profit → 0 ≤ r.u_price_difference →
      0 ≤ (MEV.simulate_arbitrage_attack bot pool r t).profit)
  ∧ (∀ s a p r t, 0 ≤ r.chosen_loan_amount → 0 ≤ a.max_loan_amount →
      0 ≤ r.u_profit_multiplier →
      0 ≤ ((FlashLoan.simulate_price_manipulation_attack s a p r t).1).profit)
  ∧ (∀ m (tp : String) r t, 0 ≤ r.u_loan → 0 ≤ m.max_manipulation_amount →
      0 ≤ r.u_impact → 0 ≤ r.u_profit →
      0 ≤ (Oracle.price_flash_loan_attack_core m tp r t).profit)
  ∧ (∀ a c r t (p : ℚ), r.recursive_calls ≠ 0 →
      (Reentrancy.simulate_single_function_reentrancy a c r t).profit = some p →
      0 ≤ p) := by
  refine ⟨?_, ?_, ?_, ?_, ?_, ?_, ?_, ?_⟩
  · intro i seed hb0 hb1 hg0 hg1 hs0 hs1
    exact ⟨uniform_mem (by norm_num) hb0 hb1, uniform_mem (by norm_num) hg0 hg1,
      uniform_mem (by norm_num) hs0 hs1⟩
  · intro src pair bp uv uc tn h0 h1
    exact uniform_mem (by norm_num) h0 h1
  · intro bot pool r t hu
    show (0:ℚ) ≤
      if r.p_success < bot.success_rate then uniform 10 500 r.u_profit else 0
    split_ifs
    · unfold uniform; nlinarith
    · norm_num
  · intro bot pool r t hu
    show (0:ℚ) ≤
      if r.p_success < bot.success_rate then uniform 5 200 r.u_profit else 0
    split_ifs
    · unfold uniform; nlinarith
    · norm_num
  · intro bot pool r t hu hv
    show (0:ℚ) ≤
      if r.p_success < bot.success_rate then
        uniform 50 1000 r.u_profit * uniform (1/100) (1/20) r.u_price_difference
      else 0
    split_ifs
    · unfold uniform
      have h1 : (0:ℚ) ≤ 50 + r.u_profit * (1000 - 50) := by nlinarith
      have h2 : (0:ℚ) ≤ 1/100 + r.u_price_difference * (1/20 - 1/100) := by nlinarith
      exact mul_nonneg h1 h2
    · norm_num
  · intro s a p r t h1 h2 h3
    show (0:ℚ) ≤
      min r.chosen_loan_amount a.max_loan_amount *
        uniform (1/100) (1/20) r.u_profit_multiplier -
      min r.chosen_loan_amount a.max_loan_amount * (9/10000)
    have hl : (0:ℚ) ≤ min r.chosen_loan_amount a.max_loan_amount := le_min h1 h2
    unfold uniform
    nlinarith [mul_nonneg hl h3]
  · intro m tp r t h1 h2 h3 h4
    show (0:ℚ) ≤
      min (uniform 100000 1000000 r.u_loan) m.max_manipulation_amount *
        uniform (1/20) (1/5) r.u_impact * uniform (1/10) (1/2) r.u_profit
    have ha : (0:ℚ) ≤ uniform 100000 1000000 r.u_loan := by unfold uniform; nlinarith
    have hb : (0:ℚ) ≤ min (uniform 100000 1000000 r.u_loan)
        m.max_manipulation_amount := le_min ha h2
    have hc : (0:ℚ) ≤ uniform (1/20) (1/5) r.u_impact := by unfold uniform; nlinarith
    have hd : (0:ℚ) ≤ uniform (1/10) (1/2) r.u_profit := by unfold uniform; nlinarith
    exact mul_nonneg (mul_nonneg hb hc) hd
  · intro a c r t p hn heq
    by_cases hv : c.is_vulnerable = false
    · unfold Reentrancy.simulate_single_function_reentrancy at heq
      rw [if_pos hv] at heq
      simp at heq
    · unfold Reentrancy.simulate_single_function_reentrancy at heq
      rw [if_neg hv] at heq
      simp only [Option.some.injEq] at heq
      rw [totalDrained_eq _ hn] at heq
      rw [← heq]
      simp

/-- Witness for C7: the range and non-negativity conclusions at concrete
seeds. -/
theorem c7_witness :
    ((100 ≤ (MEV.create_bot 0 sampleBotSeed).balance
        ∧ (MEV.create_bot 0 sampleBotSeed).balance ≤ 10000)
      ∧ (11/10 ≤ (MEV.create_bot 0 sampleBotSeed).gas_price_multiplier
        ∧ (MEV.create_bot 0 sampleBotSeed).gas_price_multiplier ≤ 2)
      ∧ (3/10 ≤ (MEV.create_bot 0 sampleBotSeed).success_rate
        ∧ (MEV.create_bot 0 sampleBotSeed).success_rate ≤ 9/10))
  ∧ (4/5 ≤ (Oracle.initialize_oracle_price ("chainlink") ("SOL/USD") 100 0 0 0).confidence
      ∧ (Oracle.initialize_oracle_price ("chainlink") ("SOL/USD") 100 0 0 0).confidence ≤ 1)
  ∧ 0 ≤ (MEV.simulate_sandwich_attack sampleBot samplePool sampleMEVRand sampleTimes).profit
  ∧ 0 ≤ (MEV.simulate_front_running_attack sampleBot samplePool sampleMEVRand sampleTimes).profit
  ∧ 0 ≤ (MEV.simulate_arbitrage_attack sampleBot samplePool sampleMEVRand sampleTimes).profit
  ∧ 0 ≤ ((FlashLoan.simulate_price_manipulation_attack sampleFlashState
        sampleFlashAttacker sampleFlashPool sampleManipRand sampleTimes).1).profit
  ∧ 0 ≤ (Oracle.price_flash_loan_attack_core sampleOracleManipulator ("SOL/USD")
        samplePriceFlashRand sampleTimes).profit
  ∧ (0:ℚ) ≤ 0 :=
  ⟨c7_random_draws_within_ranges.1 0 sampleBotSeed (by decide) (by decide)
      (by decide) (by decide) (by decide) (by decide),
   c7_random_draws_within_ranges.2.1 ("chainlink") ("SOL/USD") 100 0 0 0
      (by decide) (by decide),
   c7_random_draws_within_ranges.2.2.1 sampleBot samplePool sampleMEVRand
      sampleTimes (by decide),
   c7_random_draws_within_ranges.2.2.2.1 sampleBot samplePool sampleMEVRand
      sampleTimes (by decide),
   c7_random_draws_within_ranges.2.2.2.2.1 sampleBot samplePool sampleMEVRand
      sampleTimes (by decide) (by decide),
   c7_random_draws_within_ranges.2.2.2.2.2.1 sampleFlashState sampleFlashAttacker
      sampleFlashPool sampleManipRand sampleTimes (by decide) (by decide) (by decide),
   c7_random_draws_within_ranges.2.2.2.2.2.2.1 sampleOracleManipulator ("SOL/USD")
      samplePriceFlashRand sampleTimes (by decide) (by decide) (by decide) (by decide),
   c7_random_draws_within_ranges.2.2.2.2.2.2.2 sampleReentrancyAttacker
      sampleContract sampleReentrancyRand sampleTimes 0 (by decide) (by decide)⟩

/-- C8 (counterexample): the claim quantifies over every victim amount and
pool reserves, but on a zero denominator the first AMM division raises
ZeroDivisionError before the undefined name is ever read, so not every
input raises NameError. -/
theorem c8_counterexample :
    Script.simulate_sandwich_attack { attacks := [] } 0 0 1 sampleTimes
      = Except.error PyError.zeroDivisionError
  ∧ PyError.zeroDivisionError ≠ PyError.nameError :=
  ⟨rfl, by decide⟩

/-- C8 (amended): on every input whose intermediate AMM divisions have
non-zero denominators (in particular all positive victim amounts and
reserves), simulate_sandwich_attack raises NameError by reading the
undefined victim_expected_output; on every input whatsoever it raises some
exception, never returns a record, and never appends to the attacks
list. -/
theorem c8_amended_raises_name_error :
    (∀ (st : Script.ScriptState) (victim ra rb : ℚ) (t : AttackTimes),
      0 < victim → 0 < ra → 0 < rb →
      Script.simulate_sandwich_attack st victim ra rb t
        = Except.error PyError.nameError)
  ∧ (∀ (st : Script.ScriptState) (victim ra rb : ℚ) (t : AttackTimes)
        (out : Script.ScriptRecord × Script.ScriptState),
      Script.simulate_sandwich_attack st victim ra rb t ≠ Except.ok out) := by
  constructor
  · intro st victim ra rb t h1 h2 h3
    have hfo : victim * (3/10) * rb / (ra + victim * (3/10)) < rb := by
      rw [div_lt_iff₀ (by nlinarith)]
      nlinarith
    have hnb : 0 < rb - victim * (3/10) * rb / (ra + victim * (3/10)) := by
      linarith
    have hva : 0 < victim * (rb - victim * (3/10) * rb / (ra + victim * (3/10)))
        / (ra + victim * (3/10) + victim) :=
      div_pos (mul_pos h1 hnb) (by nlinarith)
    simp only [Script.simulate_sandwich_attack]
    split_ifs with hd1 hd2 hd3 hd4
    · nlinarith
    · nlinarith
    · nlinarith
    · exact absurd hd4 (by nlinarith)
    · rfl
  · intro st victim ra rb t out
    simp only [Script.simulate_sandwich_attack]
    split_ifs <;> simp

/-- Witness for C8 (amended): the NameError at a concrete positive
input. -/
theorem c8_amended_witness :
    Script.simulate_sandwich_attack { attacks := [] } 100 10000 10000 sampleTimes
      = Except.error PyError.nameError :=
  c8_amended_raises_name_error.1 { attacks := [] } 100 10000 10000 sampleTimes
    (by decide) (by decide) (by decide)

end VaultSwap
